import Mathlib

set_option autoImplicit false

/- Shallow embedding of dmaharana/go-mcp-jira-server (src/main.go), a Go MCP
server exposing three Jira operations.  Pure data is translated directly;
the outbound HTTP exchange is modelled as an explicit environment function
from requests to responses. -/

/-- Server name constant (src/main.go line 19). -/
def ServerName : String := "Jira MCP Server"

/-- Server version constant (src/main.go line 20). -/
def ServerVersion : String := "1.0.0"

/-- JiraConfig holds Jira connection details (src/main.go lines 24-28). -/
structure JiraConfig where
  url : String
  apiKey : String
  email : String
deriving DecidableEq, Repr

/-- CreateIssueArgs: arguments for creating a Jira issue (lines 31-37). -/
structure CreateIssueArgs where
  jiraConfig : JiraConfig
  projectKey : String
  summary : String
  description : String
  issueType : String
deriving DecidableEq, Repr

/-- UpdateIssueArgs: arguments for updating a Jira issue (lines 40-45). -/
structure UpdateIssueArgs where
  jiraConfig : JiraConfig
  issueKey : String
  summary : String
  description : String
deriving DecidableEq, Repr

/-- SearchIssuesArgs: arguments for searching Jira issues (lines 48-51). -/
structure SearchIssuesArgs where
  jiraConfig : JiraConfig
  jql : String
deriving DecidableEq, Repr

/-- Model of the Go standard library function strings.Contains: substring
containment, expressed on the underlying character lists. -/
def goStringsContains (s sub : String) : Bool :=
  decide (sub.toList <:+: s.toList)

/-- JiraClient encapsulates Jira API interactions (lines 54-58).  The
httpClient field (an HTTP client with a 10-second timeout) carries no data
relevant to this development and is omitted; the HTTP exchange itself is
modelled by an environment function below. -/
structure JiraClient where
  config : JiraConfig
  isCloud : Bool
deriving DecidableEq, Repr

/-- NewJiraClient initializes a Jira client (lines 61-68):
isCloud is strings.Contains(strings.ToLower(config.URL), ".atlassian.net"). -/
def NewJiraClient (config : JiraConfig) : JiraClient :=
  { config := config
    isCloud := goStringsContains config.url.toLower (".atlassian.net") }

/-- getBaseAPIPath returns the API base path based on Jira type (lines 71-76). -/
def getBaseAPIPath (c : JiraClient) : String :=
  if c.isCloud then "/rest/api/3" else "/rest/api/2"

/-- The deployment-variant enumeration of the specification (section 3):
Cloud or DataCenter. -/
inductive DeploymentVariant where
  | Cloud
  | DataCenter
deriving DecidableEq, Repr

/-- The variant a client resolved to, as the specification phrases it:
the code represents the variant by the boolean isCloud. -/
def resolvedVariant (c : JiraClient) : DeploymentVariant :=
  if c.isCloud then DeploymentVariant.Cloud else DeploymentVariant.DataCenter

/- Substring containment on strings, characterised as an existential
decomposition.  Used to state C1 in spec terms. -/

theorem goStringsContains_iff (s sub : String) :
    goStringsContains s sub = true ↔ ∃ pre post : String, s = pre ++ sub ++ post := by
  unfold goStringsContains
  rw [decide_eq_true_iff]
  constructor
  · rintro ⟨l, r, h⟩
    refine ⟨String.mk l, String.mk r, ?_⟩
    apply String.ext
    simpa [String.toList] using h.symm
  · rintro ⟨pre, post, h⟩
    refine ⟨pre.data, post.data, ?_⟩
    have : s.data = pre.data ++ sub.data ++ post.data := by
      rw [h]; simp
    simp [String.toList, this]

/- JSON values.  Go builds payloads as map[string]interface-style nested
maps and slices of strings; an object is an association list of fields.
Parsed response bodies are values of the same type, with object keys
unique as Go map decoding guarantees. -/

/-- JSON value type used for outbound payloads and parsed response bodies. -/
inductive Json where
  | null
  | bool (b : Bool)
  | num (n : Int)
  | str (s : String)
  | arr (elems : List Json)
  | obj (fields : List (String × Json))

/-- Hexadecimal digit character, lowercase, as emitted by the Go encoder. -/
def goHexDigit (n : Nat) : Char :=
  if n < 10 then Char.ofNat (48 + n) else Char.ofNat (87 + n)

/-- Escaping of a single character per the Go encoding/json encoder with
default HTML escaping: quote, backslash, newline, carriage return, tab,
other control characters, angle brackets, ampersand, and the two Unicode
line separators are escaped; everything else is emitted verbatim. -/
def goEscapeChar (c : Char) : String :=
  if c = '"' then "\\\""
  else if c = '\\' then "\\\\"
  else if c = '\n' then "\\n"
  else if c = '\r' then "\\r"
  else if c = '\t' then "\\t"
  else if c.toNat < 32 then
    "\\u00" ++ String.mk [goHexDigit (c.toNat / 16), goHexDigit (c.toNat % 16)]
  else if c = '<' then "\\u003c"
  else if c = '>' then "\\u003e"
  else if c = '&' then "\\u0026"
  else if c.toNat = 8232 then "\\u2028"
  else if c.toNat = 8233 then "\\u2029"
  else String.mk [c]

/-- Escape every character of a string for JSON output. -/
def goEscapeString (s : String) : String :=
  String.join (s.toList.map goEscapeChar)

/-- A JSON string literal: escaped content between double quotes. -/
def goQuoteString (s : String) : String :=
  "\"" ++ goEscapeString s ++ "\""

/-- Lexicographic order on character lists by code point; on the ASCII
keys at hand this agrees with the byte-wise ordering Go uses to sort
map keys. -/
def charListLe : List Char → List Char → Bool
  | [], _ => true
  | _ :: _, [] => false
  | a :: as, b :: bs =>
      if a.toNat < b.toNat then true
      else if b.toNat < a.toNat then false
      else charListLe as bs

/-- String comparison used when sorting object keys. -/
def strLeB (a b : String) : Bool :=
  charListLe a.data b.data

/-- Insert a rendered object field into a key-sorted list of rendered
fields (Go encoding/json sorts map keys before emitting). -/
def insertRenderedField (p : String × String) :
    List (String × String) → List (String × String)
  | [] => [p]
  | q :: qs => if strLeB p.1 q.1 then p :: q :: qs else q :: insertRenderedField p qs

/-- Sort rendered object fields by key (insertion sort). -/
def sortRenderedFields : List (String × String) → List (String × String)
  | [] => []
  | p :: ps => insertRenderedField p (sortRenderedFields ps)

mutual

/-- Compact JSON serialization as produced by Go json.Marshal: no spaces,
map keys sorted, strings escaped per goEscapeChar. -/
def jsonMarshal : Json → String
  | Json.null => "null"
  | Json.bool b => if b then "true" else "false"
  | Json.num n => toString n
  | Json.str s => goQuoteString s
  | Json.arr elems => "[" ++ String.intercalate (",") (jsonMarshalElems elems) ++ "]"
  | Json.obj fields =>
      "\x7b" ++
        String.intercalate (",")
          ((sortRenderedFields (jsonMarshalFields fields)).map Prod.snd) ++
      "\x7d"

/-- Serialize the elements of a JSON array, in order. -/
def jsonMarshalElems : List Json → List String
  | [] => []
  | j :: js => jsonMarshal j :: jsonMarshalElems js

/-- Render each object field as (key, quoted-key colon value); sorting
happens afterwards on the rendered pairs. -/
def jsonMarshalFields : List (String × Json) → List (String × String)
  | [] => []
  | (k, v) :: fs => (k, goQuoteString k ++ ":" ++ jsonMarshal v) :: jsonMarshalFields fs

end

/-- Lookup of a key in a JSON object field list (Go map indexing). -/
def jsonLookup (fields : List (String × Json)) (k : String) : Option Json :=
  match fields with
  | [] => none
  | (k2, v) :: rest => if k2 = k then some v else jsonLookup rest k

/-- Go map assignment m[k] = v on an association list: replace the
binding if the key is present, otherwise append the new binding. -/
def goMapSet (fields : List (String × Json)) (k : String) (v : Json) :
    List (String × Json) :=
  match fields with
  | [] => [(k, v)]
  | (k2, v2) :: rest =>
      if k2 = k then (k, v) :: rest else (k2, v2) :: goMapSet rest k v

/- HTTP layer.  A request records the method, the fully interpolated URL,
the optional body text, the Basic credentials installed by SetBasicAuth
(Go stores them in the Authorization header in encoded form; the model
keeps the pair), and the headers installed by Header.Set. -/

/-- Outbound HTTP request as assembled by the client operations. -/
structure HttpRequest where
  method : String
  url : String
  body : Option String
  basicAuth : Option (String × String)
  headers : List (String × String)
deriving DecidableEq, Repr

/-- Go http.Header.Set: replace the value bound to the key, or add it. -/
def headerSet (hs : List (String × String)) (k v : String) :
    List (String × String) :=
  match hs with
  | [] => [(k, v)]
  | (k2, v2) :: rest => if k2 = k then (k, v) :: rest else (k2, v2) :: headerSet rest k v

/-- Header lookup. -/
def headerGet (hs : List (String × String)) (k : String) : Option String :=
  match hs with
  | [] => none
  | (k2, v) :: rest => if k2 = k then some v else headerGet rest k

/-- Authentication and content-type headers applied to a request; this
block of code appears verbatim in all three operations (src/main.go lines
104-109, 158-163 and 186-191): Basic credentials for Cloud, a Bearer
Authorization header for Data Center, and Content-Type in either case. -/
def setAuthHeaders (c : JiraClient) (req : HttpRequest) : HttpRequest :=
  let req :=
    if c.isCloud then
      { req with basicAuth := some (c.config.email, c.config.apiKey) }
    else
      { req with headers := headerSet req.headers ("Authorization") ("Bearer " ++ c.config.apiKey) }
  { req with headers := headerSet req.headers ("Content-Type") ("application/json") }

/-- The fields map of the createIssue payload (src/main.go lines 81-92):
project key, summary, description and issue type are always present. -/
def createIssueFields (args : CreateIssueArgs) : List (String × Json) :=
  [ ("project", Json.obj [("key", Json.str args.projectKey)]),
    ("summary", Json.str args.summary),
    ("description", Json.str args.description),
    ("issuetype", Json.obj [("name", Json.str args.issueType)]) ]

/-- The createIssue payload: a single fields object. -/
def createIssuePayload (args : CreateIssueArgs) : Json :=
  Json.obj [("fields", Json.obj (createIssueFields args))]

/-- The fields map of the updateIssue payload (src/main.go lines 137-146):
starts empty; summary and description are assigned only when non-empty. -/
def updateIssueFields (args : UpdateIssueArgs) : List (String × Json) :=
  let fields : List (String × Json) := []
  let fields :=
    if args.summary ≠ "" then goMapSet fields ("summary") (Json.str args.summary) else fields
  let fields :=
    if args.description ≠ "" then goMapSet fields ("description") (Json.str args.description) else fields
  fields

/-- The updateIssue payload: a single fields object. -/
def updateIssuePayload (args : UpdateIssueArgs) : Json :=
  Json.obj [("fields", Json.obj (updateIssueFields args))]

/-- The POST request assembled by createIssue (lines 80-109). -/
def buildCreateRequest (c : JiraClient) (args : CreateIssueArgs) : HttpRequest :=
  setAuthHeaders c
    { method := "POST"
      url := c.config.url ++ getBaseAPIPath c ++ "/issue"
      body := some (jsonMarshal (createIssuePayload args))
      basicAuth := none
      headers := [] }

/-- The PUT request assembled by updateIssue (lines 136-163). -/
def buildUpdateRequest (c : JiraClient) (args : UpdateIssueArgs) : HttpRequest :=
  setAuthHeaders c
    { method := "PUT"
      url := c.config.url ++ getBaseAPIPath c ++ "/issue/" ++ args.issueKey
      body := some (jsonMarshal (updateIssuePayload args))
      basicAuth := none
      headers := [] }

/-- The GET request assembled by searchIssues (lines 180-191); the JQL
string is interpolated into the URL without additional encoding. -/
def buildSearchRequest (c : JiraClient) (args : SearchIssuesArgs) : HttpRequest :=
  setAuthHeaders c
    { method := "GET"
      url := c.config.url ++ getBaseAPIPath c ++ "/search?jql=" ++ args.jql ++ "&fields=summary"
      body := none
      basicAuth := none
      headers := [] }

/-- Upstream HTTP response: status code and body.  The body field holds
the parsed JSON value when the body is valid JSON, and none otherwise. -/
structure HttpResponse where
  statusCode : Nat
  body : Option Json

/-- Error values produced by the client operations, one constructor per
fmt.Errorf site reachable in the model: transport failure with its
message, the three per-operation unexpected-status errors carrying the
numeric code, a JSON decoding failure, and a missing issue key. -/
inductive JiraError where
  | sendFailed (msg : String)
  | createStatusError (code : Nat)
  | updateStatusError (code : Nat)
  | searchStatusError (code : Nat)
  | decodeFailed
  | keyNotFound
deriving DecidableEq, Repr

/-- The outbound HTTP exchange (httpClient.Do): an environment mapping a
request to either a transport error message or a response. -/
def HttpEnv : Type := HttpRequest → Except String HttpResponse

/-- Go json.Decode into map[string]interface-typed storage: an object
yields its fields, null leaves the nil map (no error), any other JSON
value or an unparseable body is a decoding error. -/
def decodeTopLevelObject (body : Option Json) : Except Unit (List (String × Json)) :=
  match body with
  | none => Except.error ()
  | some (Json.obj fs) => Except.ok fs
  | some Json.null => Except.ok []
  | some _ => Except.error ()

/-- createIssue (src/main.go lines 79-132): send the POST request; any
status other than 201 is an error carrying the code; otherwise decode the
body and require a string at the top-level key field. -/
def createIssue (c : JiraClient) (env : HttpEnv) (args : CreateIssueArgs) :
    Except JiraError String :=
  match env (buildCreateRequest c args) with
  | Except.error msg => Except.error (JiraError.sendFailed msg)
  | Except.ok resp =>
    if resp.statusCode ≠ 201 then
      Except.error (JiraError.createStatusError resp.statusCode)
    else
      match decodeTopLevelObject resp.body with
      | Except.error _ => Except.error JiraError.decodeFailed
      | Except.ok result =>
        match jsonLookup result ("key") with
        | some (Json.str issueKey) => Except.ok issueKey
        | _ => Except.error JiraError.keyNotFound

/-- updateIssue (src/main.go lines 135-176): send the PUT request; any
status other than 204 or 200 is an error carrying the code; on success
return the input issue key, without reading the response body. -/
def updateIssue (c : JiraClient) (env : HttpEnv) (args : UpdateIssueArgs) :
    Except JiraError String :=
  match env (buildUpdateRequest c args) with
  | Except.error msg => Except.error (JiraError.sendFailed msg)
  | Except.ok resp =>
    if resp.statusCode ≠ 204 ∧ resp.statusCode ≠ 200 then
      Except.error (JiraError.updateStatusError resp.statusCode)
    else Except.ok args.issueKey

/- Decoding of the search response body.  searchIssues decodes into a
typed Go struct: a top-level issues slice whose elements carry a key and
a fields struct with a summary.  Go json unmarshalling leaves the zero
value for an absent or null field, and fails when a present value has the
wrong type. -/

/-- The nested fields struct of a decoded search result issue. -/
structure SearchIssueFields where
  summary : String
deriving DecidableEq, Repr

/-- One element of the decoded issues slice. -/
structure SearchIssue where
  key : String
  fields : SearchIssueFields
deriving DecidableEq, Repr

/-- The pair exposed for one found issue (the Go code builds a
two-entry map with the fixed keys key and summary). -/
structure IssueSummaryView where
  key : String
  summary : String
deriving DecidableEq, Repr

/-- JSON rendering of one found issue as marshalled by the search tool
handler: the two-key map. -/
def issueSummaryViewJson (v : IssueSummaryView) : Json :=
  Json.obj [("key", Json.str v.key), ("summary", Json.str v.summary)]

/-- Decode a Go string field: absent or null leaves the zero value,
a JSON string is taken verbatim, any other value is a type error. -/
def decodeGoStringField (v : Option Json) : Except Unit String :=
  match v with
  | none => Except.ok ""
  | some Json.null => Except.ok ""
  | some (Json.str s) => Except.ok s
  | some _ => Except.error ()

/-- Decode the nested fields struct of a search result issue. -/
def decodeSearchIssueFields (v : Option Json) : Except Unit SearchIssueFields :=
  match v with
  | none => Except.ok ⟨""⟩
  | some Json.null => Except.ok ⟨""⟩
  | some (Json.obj fs) =>
      match decodeGoStringField (jsonLookup fs ("summary")) with
      | Except.error e => Except.error e
      | Except.ok s => Except.ok ⟨s⟩
  | some _ => Except.error ()

/-- Decode one element of the issues array. -/
def decodeSearchIssue (j : Json) : Except Unit SearchIssue :=
  match j with
  | Json.null => Except.ok ⟨"", ⟨""⟩⟩
  | Json.obj fs =>
      match decodeGoStringField (jsonLookup fs ("key")) with
      | Except.error e => Except.error e
      | Except.ok k =>
        match decodeSearchIssueFields (jsonLookup fs ("fields")) with
        | Except.error e => Except.error e
        | Except.ok f => Except.ok ⟨k, f⟩
  | _ => Except.error ()

/-- Decode a list of issue elements in order, failing on the first
element that does not decode. -/
def decodeSearchIssueList : List Json → Except Unit (List SearchIssue)
  | [] => Except.ok []
  | j :: js =>
      match decodeSearchIssue j with
      | Except.error e => Except.error e
      | Except.ok i =>
        match decodeSearchIssueList js with
        | Except.error e => Except.error e
        | Except.ok rest => Except.ok (i :: rest)

/-- Decode the issues member: absent or null leaves the nil slice, an
array decodes elementwise, any other value is a type error. -/
def decodeSearchIssues (v : Option Json) : Except Unit (List SearchIssue) :=
  match v with
  | none => Except.ok []
  | some Json.null => Except.ok []
  | some (Json.arr xs) => decodeSearchIssueList xs
  | some _ => Except.error ()

/-- Decode the whole search response body into the typed result struct. -/
def decodeSearchResponse (body : Option Json) : Except Unit (List SearchIssue) :=
  match body with
  | none => Except.error ()
  | some Json.null => Except.ok []
  | some (Json.obj fs) => decodeSearchIssues (jsonLookup fs ("issues"))
  | some _ => Except.error ()

/-- searchIssues (src/main.go lines 179-224): send the GET request; any
status other than 200 is an error carrying the code; otherwise decode the
body and project every decoded issue to its key and summary. -/
def searchIssues (c : JiraClient) (env : HttpEnv) (args : SearchIssuesArgs) :
    Except JiraError (List IssueSummaryView) :=
  match env (buildSearchRequest c args) with
  | Except.error msg => Except.error (JiraError.sendFailed msg)
  | Except.ok resp =>
    if resp.statusCode ≠ 200 then
      Except.error (JiraError.searchStatusError resp.statusCode)
    else
      match decodeSearchResponse resp.body with
      | Except.error _ => Except.error JiraError.decodeFailed
      | Except.ok result =>
          Except.ok (result.map (fun issue => ⟨issue.key, issue.fields.summary⟩))

/- Tool dispatch shim (src/main.go lines 266-311): each handler builds a
client from the embedded configuration, invokes one client operation, and
either propagates the error value or wraps the result in a tool
response. -/

/-- A piece of tool response content (mcp-golang NewTextContent). -/
inductive ToolContent where
  | text (s : String)
deriving DecidableEq, Repr

/-- A tool response (mcp-golang NewToolResponse). -/
structure ToolResponse where
  content : List ToolContent
deriving DecidableEq, Repr

/-- The create_issue tool handler (lines 267-276). -/
def createIssueToolHandler (env : HttpEnv) (args : CreateIssueArgs) :
    Except JiraError ToolResponse :=
  let client := NewJiraClient args.jiraConfig
  match createIssue client env args with
  | Except.error e => Except.error e
  | Except.ok issueKey =>
      Except.ok ⟨[ToolContent.text ("Created issue: " ++ issueKey)]⟩

/-- The update_issue tool handler (lines 283-292). -/
def updateIssueToolHandler (env : HttpEnv) (args : UpdateIssueArgs) :
    Except JiraError ToolResponse :=
  let client := NewJiraClient args.jiraConfig
  match updateIssue client env args with
  | Except.error e => Except.error e
  | Except.ok issueKey =>
      Except.ok ⟨[ToolContent.text ("Updated issue: " ++ issueKey)]⟩

/-- The search_issues tool handler (lines 299-308); the found issues are
serialized back to JSON text with mustMarshal. -/
def searchIssuesToolHandler (env : HttpEnv) (args : SearchIssuesArgs) :
    Except JiraError ToolResponse :=
  let client := NewJiraClient args.jiraConfig
  match searchIssues client env args with
  | Except.error e => Except.error e
  | Except.ok issues =>
      Except.ok ⟨[ToolContent.text (jsonMarshal (Json.arr (issues.map issueSummaryViewJson)))]⟩

/- Capability resource (src/main.go lines 242-260). -/

/-- An embedded text resource (mcp-golang NewTextEmbeddedResource). -/
structure EmbeddedResource where
  uri : String
  text : String
  mimeType : String
deriving DecidableEq, Repr

/-- A resource response (mcp-golang NewResourceResponse). -/
structure ResourceResponse where
  contents : List EmbeddedResource
deriving DecidableEq, Repr

/-- The info map registered for the server-information resource: name,
version and the fixed action list, in source order. -/
def serverInfoFields : List (String × Json) :=
  [ ("name", Json.str ServerName),
    ("version", Json.str ServerVersion),
    ("actions", Json.arr
      [Json.str ("create_issue"), Json.str ("update_issue"), Json.str ("search_issues")]) ]

/-- The server-information resource handler: takes no input and always
returns the constant resource response with a nil error. -/
def serverInfoHandler : Unit → Except JiraError ResourceResponse :=
  fun _ =>
    Except.ok ⟨[⟨"info://server", jsonMarshal (Json.obj serverInfoFields), "application/json"⟩]⟩

/- Helper lemmas and specification predicates shared by the claim
theorems below. -/

/-- Constructing a client stores the configuration unchanged. -/
theorem NewJiraClient_config (cfg : JiraConfig) : (NewJiraClient cfg).config = cfg := rfl

/-- Authentication shape of one outbound request, parameterised by the
configuration it was built from: Basic credentials exactly for Cloud,
a Bearer Authorization header exactly for Data Center, and the JSON
content type always. -/
def requestAuthSpec (cfg : JiraConfig) (r : HttpRequest) : Prop :=
  r.basicAuth = (if (NewJiraClient cfg).isCloud then some (cfg.email, cfg.apiKey) else none) ∧
  headerGet r.headers ("Authorization") =
    (if (NewJiraClient cfg).isCloud then none else some ("Bearer " ++ cfg.apiKey)) ∧
  headerGet r.headers ("Content-Type") = some ("application/json")

/-- Serialization of the update payload when only the summary survives
the emptiness filter. -/
theorem marshal_update_summary_only (x : String) :
    jsonMarshal (Json.obj [("fields", Json.obj [("summary", Json.str x)])]) =
      "\x7b\"fields\":\x7b\"summary\":" ++ goQuoteString x ++ "\x7d\x7d" := by
  have h1 : goQuoteString ("fields") = "\"fields\"" := by decide
  have h2 : goQuoteString ("summary") = "\"summary\"" := by decide
  simp only [jsonMarshal, jsonMarshalFields, sortRenderedFields, insertRenderedField,
    String.intercalate, String.intercalate.go, List.map, h1, h2]
  apply String.ext
  simp

/-- Serialization of the update payload when both optional fields are
filtered out: the empty fields object. -/
theorem marshal_update_empty :
    jsonMarshal (Json.obj [("fields", Json.obj ([] : List (String × Json)))]) =
      "\x7b\"fields\":\x7b\x7d\x7d" := by
  decide

/-- Claim C1: for every base URL string, the deployment-variant
resolution computed in NewJiraClient classifies the configuration as
Cloud exactly when the lower-cased URL contains the literal substring
.atlassian.net, and as DataCenter otherwise; the resolution is total
and never fails. -/
theorem C1_variant_resolution (cfg : JiraConfig) :
    (resolvedVariant (NewJiraClient cfg) = DeploymentVariant.Cloud ↔
      ∃ pre post : String, cfg.url.toLower = pre ++ ".atlassian.net" ++ post) ∧
    (resolvedVariant (NewJiraClient cfg) = DeploymentVariant.Cloud ∨
      resolvedVariant (NewJiraClient cfg) = DeploymentVariant.DataCenter) := by
  have hc : (NewJiraClient cfg).isCloud = goStringsContains cfg.url.toLower (".atlassian.net") := rfl
  constructor
  · rw [← goStringsContains_iff]
    cases hb : goStringsContains cfg.url.toLower (".atlassian.net") <;>
      simp [resolvedVariant, hc, hb]
  · cases hb : (NewJiraClient cfg).isCloud <;> simp [resolvedVariant, hb]

/-- Claim C2: for every configuration and each of the three operations,
the outbound request uses API path /rest/api/3 and Basic credentials
(email, key) when the client resolved to Cloud, and /rest/api/2 with an
Authorization Bearer header when it resolved to DataCenter; the JSON
content type header is set in every case, for every HTTP method. -/
theorem C2_request_auth_and_path (cfg : JiraConfig) (ca : CreateIssueArgs)
    (ua : UpdateIssueArgs) (sa : SearchIssuesArgs) :
    ((buildCreateRequest (NewJiraClient cfg) ca).url =
        cfg.url ++ (if (NewJiraClient cfg).isCloud then "/rest/api/3" else "/rest/api/2") ++
          "/issue") ∧
    ((buildUpdateRequest (NewJiraClient cfg) ua).url =
        cfg.url ++ (if (NewJiraClient cfg).isCloud then "/rest/api/3" else "/rest/api/2") ++
          "/issue/" ++ ua.issueKey) ∧
    ((buildSearchRequest (NewJiraClient cfg) sa).url =
        cfg.url ++ (if (NewJiraClient cfg).isCloud then "/rest/api/3" else "/rest/api/2") ++
          "/search?jql=" ++ sa.jql ++ "&fields=summary") ∧
    requestAuthSpec cfg (buildCreateRequest (NewJiraClient cfg) ca) ∧
    requestAuthSpec cfg (buildUpdateRequest (NewJiraClient cfg) ua) ∧
    requestAuthSpec cfg (buildSearchRequest (NewJiraClient cfg) sa) := by
  cases hb : (NewJiraClient cfg).isCloud <;>
    simp [buildCreateRequest, buildUpdateRequest, buildSearchRequest, setAuthHeaders,
      getBaseAPIPath, headerGet, headerSet, requestAuthSpec, NewJiraClient_config, hb]

/-- Claim C3: createIssue succeeds only on upstream status 201; any
other status yields the error carrying that code, independent of the
body; on 201 the body is decoded and the top-level key field returned,
with a malformed-response error when the field is absent or not a
string. -/
theorem C3_create_response_handling (cfg : JiraConfig) (args : CreateIssueArgs)
    (resp : HttpResponse) :
    (resp.statusCode ≠ 201 →
      createIssue (NewJiraClient cfg) (fun _ => Except.ok resp) args =
        Except.error (JiraError.createStatusError resp.statusCode)) ∧
    (∀ k : String,
      createIssue (NewJiraClient cfg) (fun _ => Except.ok resp) args = Except.ok k →
        resp.statusCode = 201 ∧
        ∃ fs, resp.body = some (Json.obj fs) ∧ jsonLookup fs ("key") = some (Json.str k)) ∧
    (resp.statusCode = 201 → ∀ fs, resp.body = some (Json.obj fs) →
      createIssue (NewJiraClient cfg) (fun _ => Except.ok resp) args =
        (match jsonLookup fs ("key") with
         | some (Json.str k) => Except.ok k
         | _ => Except.error JiraError.keyNotFound)) := by
  by_cases h : resp.statusCode = 201
  · refine ⟨fun hne => absurd h hne, ?_, ?_⟩
    · intro k hk
      refine ⟨h, ?_⟩
      simp only [createIssue, h] at hk
      simp at hk
      cases hb : resp.body with
      | none => rw [hb] at hk; simp [decodeTopLevelObject] at hk
      | some j =>
        rw [hb] at hk
        cases j with
        | null => simp [decodeTopLevelObject, jsonLookup] at hk
        | bool b => simp [decodeTopLevelObject] at hk
        | num n => simp [decodeTopLevelObject] at hk
        | str s => simp [decodeTopLevelObject] at hk
        | arr xs => simp [decodeTopLevelObject] at hk
        | obj fs =>
          refine ⟨fs, rfl, ?_⟩
          simp [decodeTopLevelObject] at hk
          cases hl : jsonLookup fs ("key") with
          | none => rw [hl] at hk; simp at hk
          | some v =>
            rw [hl] at hk
            cases v <;> simp_all
    · intro _ fs hb
      simp [createIssue, h, hb, decodeTopLevelObject]
  · refine ⟨fun _ => ?_, ?_, fun h201 => absurd h201 h⟩
    · simp [createIssue, h]
    · intro k hk
      simp [createIssue, h] at hk

/-- Witness for claim C3 at concrete responses: a 400 response fails
with the status error, and a 201 response with body containing key
PROJ-123 succeeds with that key. -/
theorem C3_create_response_handling_witness :
    createIssue (NewJiraClient ⟨"https://x.atlassian.net", "k", "e"⟩)
        (fun _ => Except.ok ⟨400, none⟩)
        ⟨⟨"https://x.atlassian.net", "k", "e"⟩, "PROJ", "S", "", "Task"⟩ =
      Except.error (JiraError.createStatusError 400) ∧
    createIssue (NewJiraClient ⟨"https://x.atlassian.net", "k", "e"⟩)
        (fun _ => Except.ok ⟨201, some (Json.obj [("key", Json.str "PROJ-123")])⟩)
        ⟨⟨"https://x.atlassian.net", "k", "e"⟩, "PROJ", "S", "", "Task"⟩ =
      Except.ok "PROJ-123" := by
  constructor
  · exact (C3_create_response_handling _ _ _).1 (by decide)
  · exact ((C3_create_response_handling _ _
      ⟨201, some (Json.obj [("key", Json.str "PROJ-123")])⟩).2.2 rfl _ rfl).trans rfl

/-- Claim C4: the update body is a fields object containing exactly the
optional members whose values are non-empty; with only the summary set
the serialized body is the fields object with the single summary member
and no description key; with both empty the serialized body is the empty
fields object, and the request is still sent rather than rejected. -/
theorem C4_update_payload_fields (cfg : JiraConfig) (args : UpdateIssueArgs) :
    (jsonLookup (updateIssueFields args) ("summary") =
      (if args.summary = "" then none else some (Json.str args.summary))) ∧
    (jsonLookup (updateIssueFields args) ("description") =
      (if args.description = "" then none else some (Json.str args.description))) ∧
    ((updateIssueFields args).map Prod.fst =
      (if args.summary = "" then [] else ["summary"]) ++
      (if args.description = "" then [] else ["description"])) ∧
    (args.summary ≠ "" → args.description = "" →
      jsonMarshal (updateIssuePayload args) =
        "\x7b\"fields\":\x7b\"summary\":" ++ goQuoteString args.summary ++ "\x7d\x7d") ∧
    (args.summary = "" → args.description = "" →
      jsonMarshal (updateIssuePayload args) = "\x7b\"fields\":\x7b\x7d\x7d") ∧
    ((buildUpdateRequest (NewJiraClient cfg) args).body =
      some (jsonMarshal (updateIssuePayload args))) ∧
    (args.summary = "" → args.description = "" →
      updateIssue (NewJiraClient cfg) (fun _ => Except.ok ⟨204, none⟩) args =
        Except.ok args.issueKey) := by
  by_cases hs : args.summary = "" <;> by_cases hd : args.description = "" <;>
    simp [updateIssueFields, updateIssuePayload, goMapSet, jsonLookup, hs, hd,
      buildUpdateRequest, setAuthHeaders, updateIssue, marshal_update_summary_only,
      marshal_update_empty] <;>
    cases hb : (NewJiraClient cfg).isCloud <;> simp [hb]

/-- Witness for claim C4 at concrete arguments: an update with only a
summary serializes to the single-member fields object, one with both
fields empty serializes to the empty fields object and is still sent,
succeeding on a 204 response. -/
theorem C4_update_payload_fields_witness :
    jsonMarshal (updateIssuePayload ⟨⟨"u", "k", "e"⟩, "PROJ-1", "New title", ""⟩) =
      "\x7b\"fields\":\x7b\"summary\":\"New title\"\x7d\x7d" ∧
    jsonMarshal (updateIssuePayload ⟨⟨"u", "k", "e"⟩, "PROJ-1", "", ""⟩) =
      "\x7b\"fields\":\x7b\x7d\x7d" ∧
    updateIssue (NewJiraClient ⟨"u", "k", "e"⟩) (fun _ => Except.ok ⟨204, none⟩)
      ⟨⟨"u", "k", "e"⟩, "PROJ-1", "", ""⟩ = Except.ok "PROJ-1" := by
  refine ⟨?_, ?_, ?_⟩
  · exact ((C4_update_payload_fields ⟨"u", "k", "e"⟩ _).2.2.2.1 (by decide) rfl).trans (by decide)
  · exact (C4_update_payload_fields ⟨"u", "k", "e"⟩ _).2.2.2.2.1 rfl rfl
  · exact (C4_update_payload_fields ⟨"u", "k", "e"⟩
      ⟨⟨"u", "k", "e"⟩, "PROJ-1", "", ""⟩).2.2.2.2.2.2 rfl rfl

/-- Claim C5: updateIssue succeeds exactly when the upstream status is
200 or 204, in which case it returns the issue key it was given; the
response body is never read; any other status yields the error carrying
that code. -/
theorem C5_update_response_handling (cfg : JiraConfig) (args : UpdateIssueArgs)
    (code : Nat) (b1 b2 : Option Json) :
    (updateIssue (NewJiraClient cfg) (fun _ => Except.ok ⟨code, b1⟩) args =
      updateIssue (NewJiraClient cfg) (fun _ => Except.ok ⟨code, b2⟩) args) ∧
    (updateIssue (NewJiraClient cfg) (fun _ => Except.ok ⟨code, b1⟩) args =
        Except.ok args.issueKey ↔ (code = 200 ∨ code = 204)) ∧
    (∀ r, updateIssue (NewJiraClient cfg) (fun _ => Except.ok ⟨code, b1⟩) args =
        Except.ok r → r = args.issueKey) ∧
    (¬(code = 200 ∨ code = 204) →
      updateIssue (NewJiraClient cfg) (fun _ => Except.ok ⟨code, b1⟩) args =
        Except.error (JiraError.updateStatusError code)) := by
  by_cases h4 : code = 204 <;> by_cases h0 : code = 200 <;>
    simp [updateIssue, h4, h0]

/-- Witness for claim C5 at concrete inputs: a 204 response returns the
input key unchanged, a 400 response fails with the status error. -/
theorem C5_update_response_handling_witness :
    updateIssue (NewJiraClient ⟨"u", "k", "e"⟩) (fun _ => Except.ok ⟨204, none⟩)
      ⟨⟨"u", "k", "e"⟩, "PROJ-7", "", ""⟩ = Except.ok "PROJ-7" ∧
    updateIssue (NewJiraClient ⟨"u", "k", "e"⟩) (fun _ => Except.ok ⟨400, none⟩)
      ⟨⟨"u", "k", "e"⟩, "PROJ-7", "", ""⟩ =
      Except.error (JiraError.updateStatusError 400) := by
  constructor
  · exact (C5_update_response_handling ⟨"u", "k", "e"⟩
      ⟨⟨"u", "k", "e"⟩, "PROJ-7", "", ""⟩ 204 none none).2.1.mpr (Or.inr rfl)
  · exact (C5_update_response_handling ⟨"u", "k", "e"⟩
      ⟨⟨"u", "k", "e"⟩, "PROJ-7", "", ""⟩ 400 none none).2.2.2 (by decide)

/-- Claim C6: searchIssues succeeds only on upstream status 200, any
other status yielding the error carrying the code; on success the body
is decoded as an object with an issues array and every element is
projected to its key and fields.summary pair; an object body with no
issues member yields the empty list, not an error. -/
theorem C6_search_response_handling (cfg : JiraConfig) (args : SearchIssuesArgs)
    (resp : HttpResponse) :
    (resp.statusCode ≠ 200 →
      searchIssues (NewJiraClient cfg) (fun _ => Except.ok resp) args =
        Except.error (JiraError.searchStatusError resp.statusCode)) ∧
    (resp.statusCode = 200 → ∀ fs, resp.body = some (Json.obj fs) →
      jsonLookup fs ("issues") = none →
        searchIssues (NewJiraClient cfg) (fun _ => Except.ok resp) args = Except.ok []) ∧
    (resp.statusCode = 200 → ∀ fs xs issues, resp.body = some (Json.obj fs) →
      jsonLookup fs ("issues") = some (Json.arr xs) →
      decodeSearchIssueList xs = Except.ok issues →
        searchIssues (NewJiraClient cfg) (fun _ => Except.ok resp) args =
          Except.ok (issues.map (fun i => ⟨i.key, i.fields.summary⟩))) := by
  by_cases h : resp.statusCode = 200
  · refine ⟨fun hne => absurd h hne, ?_, ?_⟩
    · intro _ fs hb hmiss
      simp [searchIssues, h, hb, decodeSearchResponse, decodeSearchIssues, hmiss,
        decodeSearchIssueList]
    · intro _ fs xs issues hb hiss hmap
      simp [searchIssues, h, hb, decodeSearchResponse, decodeSearchIssues, hiss, hmap]
  · refine ⟨fun _ => ?_, fun h200 => absurd h200 h, fun h200 => absurd h200 h⟩
    simp [searchIssues, h]

/-- Witness for claim C6 at concrete responses: the one-issue body from
the specification examples projects to its key and summary, a body with
no issues member yields the empty list, and a 500 response fails with
the status error. -/
theorem C6_search_response_handling_witness :
    searchIssues (NewJiraClient ⟨"u", "k", "e"⟩)
        (fun _ => Except.ok ⟨200, some (Json.obj [("issues", Json.arr
          [Json.obj [("key", Json.str "A-1"),
                     ("fields", Json.obj [("summary", Json.str "S1")])]])])⟩)
        ⟨⟨"u", "k", "e"⟩, "project = X"⟩ = Except.ok [⟨"A-1", "S1"⟩] ∧
    searchIssues (NewJiraClient ⟨"u", "k", "e"⟩)
        (fun _ => Except.ok ⟨200, some (Json.obj [])⟩)
        ⟨⟨"u", "k", "e"⟩, "project = X"⟩ = Except.ok [] ∧
    searchIssues (NewJiraClient ⟨"u", "k", "e"⟩)
        (fun _ => Except.ok ⟨500, none⟩)
        ⟨⟨"u", "k", "e"⟩, "project = X"⟩ =
      Except.error (JiraError.searchStatusError 500) := by
  refine ⟨?_, ?_, ?_⟩
  · exact (C6_search_response_handling ⟨"u", "k", "e"⟩ ⟨⟨"u", "k", "e"⟩, "project = X"⟩
      ⟨200, some (Json.obj [("issues", Json.arr
        [Json.obj [("key", Json.str "A-1"),
                   ("fields", Json.obj [("summary", Json.str "S1")])]])])⟩).2.2 rfl
      [("issues", Json.arr
        [Json.obj [("key", Json.str "A-1"),
                   ("fields", Json.obj [("summary", Json.str "S1")])]])]
      [Json.obj [("key", Json.str "A-1"),
                 ("fields", Json.obj [("summary", Json.str "S1")])]]
      [⟨"A-1", ⟨"S1"⟩⟩] rfl rfl rfl
  · exact (C6_search_response_handling ⟨"u", "k", "e"⟩ ⟨⟨"u", "k", "e"⟩, "project = X"⟩
      ⟨200, some (Json.obj [])⟩).2.1 rfl [] rfl rfl
  · exact (C6_search_response_handling ⟨"u", "k", "e"⟩ ⟨⟨"u", "k", "e"⟩, "project = X"⟩
      ⟨500, none⟩).1 (by decide)

/-- Claim C7: whenever a client operation fails, the corresponding tool
handler returns the identical error value to the protocol layer, with no
wrapping, replacement, recovery or retry. -/
theorem C7_error_propagation (env : HttpEnv) :
    (∀ (a : CreateIssueArgs) (e : JiraError),
      createIssue (NewJiraClient a.jiraConfig) env a = Except.error e →
        createIssueToolHandler env a = Except.error e) ∧
    (∀ (a : UpdateIssueArgs) (e : JiraError),
      updateIssue (NewJiraClient a.jiraConfig) env a = Except.error e →
        updateIssueToolHandler env a = Except.error e) ∧
    (∀ (a : SearchIssuesArgs) (e : JiraError),
      searchIssues (NewJiraClient a.jiraConfig) env a = Except.error e →
        searchIssuesToolHandler env a = Except.error e) := by
  refine ⟨fun a e h => ?_, fun a e h => ?_, fun a e h => ?_⟩ <;>
    simp [createIssueToolHandler, updateIssueToolHandler, searchIssuesToolHandler, h]

/-- Witness for claim C7 at a failing transport environment: each of the
three handlers surfaces the identical transport error value. -/
theorem C7_error_propagation_witness :
    createIssueToolHandler (fun _ => Except.error "boom")
      ⟨⟨"u", "k", "e"⟩, "P", "S", "", "Task"⟩ =
      Except.error (JiraError.sendFailed "boom") ∧
    updateIssueToolHandler (fun _ => Except.error "boom")
      ⟨⟨"u", "k", "e"⟩, "PROJ-1", "", ""⟩ =
      Except.error (JiraError.sendFailed "boom") ∧
    searchIssuesToolHandler (fun _ => Except.error "boom")
      ⟨⟨"u", "k", "e"⟩, "project = X"⟩ =
      Except.error (JiraError.sendFailed "boom") := by
  refine ⟨?_, ?_, ?_⟩
  · exact (C7_error_propagation (fun _ => Except.error "boom")).1 _ _ rfl
  · exact (C7_error_propagation (fun _ => Except.error "boom")).2.1 _ _ rfl
  · exact (C7_error_propagation (fun _ => Except.error "boom")).2.2 _ _ rfl

/-- Claim C8: every read of the capability resource returns the same
constant JSON content, whose object carries the server name, the
version, and exactly the three action identifiers in the order
create_issue, update_issue, search_issues; the read takes no input and
never returns an error. -/
theorem C8_server_info_resource :
    (∀ u : Unit, serverInfoHandler u =
      Except.ok ⟨[⟨"info://server", jsonMarshal (Json.obj serverInfoFields),
        "application/json"⟩]⟩) ∧
    jsonMarshal (Json.obj serverInfoFields) =
      "\x7b\"actions\":[\"create_issue\",\"update_issue\",\"search_issues\"],\"name\":\"Jira MCP Server\",\"version\":\"1.0.0\"\x7d" ∧
    jsonLookup serverInfoFields ("name") = some (Json.str ServerName) ∧
    jsonLookup serverInfoFields ("version") = some (Json.str ServerVersion) ∧
    jsonLookup serverInfoFields ("actions") =
      some (Json.arr
        [Json.str ("create_issue"), Json.str ("update_issue"), Json.str ("search_issues")]) := by
  refine ⟨fun u => rfl, by decide, rfl, rfl, rfl⟩

/-- Claim C9: the create payload always carries a description member
under fields holding the given description string, even when it is
empty; updateIssue, by contrast, omits an empty description. -/
theorem C9_create_description_always_present (args : CreateIssueArgs)
    (uargs : UpdateIssueArgs) :
    jsonLookup (createIssueFields args) ("description") = some (Json.str args.description) ∧
    (jsonLookup (updateIssueFields uargs) ("description") =
      (if uargs.description = "" then none else some (Json.str uargs.description))) := by
  constructor
  · simp [createIssueFields, jsonLookup]
  · by_cases hs : uargs.summary = "" <;> by_cases hd : uargs.description = "" <;>
      simp [updateIssueFields, goMapSet, jsonLookup, hs, hd]

/-- Claim C10: two configurations with the same URL resolve to the same
deployment variant whatever their key and email fields, hence to the
same API path and the same authentication-scheme selection. -/
theorem C10_variant_noninterference (cfg1 cfg2 : JiraConfig)
    (h : cfg1.url = cfg2.url) (ca : CreateIssueArgs) :
    (NewJiraClient cfg1).isCloud = (NewJiraClient cfg2).isCloud ∧
    getBaseAPIPath (NewJiraClient cfg1) = getBaseAPIPath (NewJiraClient cfg2) ∧
    resolvedVariant (NewJiraClient cfg1) = resolvedVariant (NewJiraClient cfg2) ∧
    ((buildCreateRequest (NewJiraClient cfg1) ca).basicAuth.isSome =
      (buildCreateRequest (NewJiraClient cfg2) ca).basicAuth.isSome) ∧
    ((headerGet (buildCreateRequest (NewJiraClient cfg1) ca).headers ("Authorization")).isSome =
      (headerGet (buildCreateRequest (NewJiraClient cfg2) ca).headers
        ("Authorization")).isSome) := by
  have hc : (NewJiraClient cfg1).isCloud = (NewJiraClient cfg2).isCloud := by
    simp [NewJiraClient, h]
  refine ⟨hc, ?_, ?_, ?_, ?_⟩ <;>
    cases hb : (NewJiraClient cfg2).isCloud <;>
      rw [hb] at hc <;>
        simp [getBaseAPIPath, resolvedVariant, buildCreateRequest, setAuthHeaders,
          headerGet, headerSet, hc, hb]

/-- Witness for claim C10 at two concrete configurations sharing a URL
but differing in key and email: the resolved variant and path agree. -/
theorem C10_variant_noninterference_witness :
    (NewJiraClient ⟨"https://x.atlassian.net", "k1", "e1"⟩).isCloud =
      (NewJiraClient ⟨"https://x.atlassian.net", "k2", "e2"⟩).isCloud ∧
    getBaseAPIPath (NewJiraClient ⟨"https://x.atlassian.net", "k1", "e1"⟩) =
      getBaseAPIPath (NewJiraClient ⟨"https://x.atlassian.net", "k2", "e2"⟩) := by
  have h := C10_variant_noninterference ⟨"https://x.atlassian.net", "k1", "e1"⟩
    ⟨"https://x.atlassian.net", "k2", "e2"⟩ rfl ⟨⟨"u", "k", "e"⟩, "P", "S", "", "Task"⟩
  exact ⟨h.1, h.2.1⟩
